import Mathlib

/-!
Verification of the touchid repository: a minimal lock registry (spec §2-§8)
plus a user-CRUD HTTP service (src/src/main.rs). The data model (`Lock`,
`User`, `Error`) and the user-CRUD handlers are embedded from the source;
the lock-registry operations themselves are absent from the source snapshot
(only the `Lock` record is declared, in src/src/lock.rs) and are modelled
from the spec where noted.
-/

set_option autoImplicit false

namespace TouchId

/-- Embeds `Lock` from src/src/lock.rs: a single-field record holding the
opaque token string. -/
structure Lock where
  token : String
  deriving DecidableEq, Repr

/-- Embeds `User` from src/src/user.rs: id, name, email. The Rust id is an
`i32`; only equality and ordering on ids are used, so `Int` embeds it. -/
structure User where
  id : Int
  name : String
  email : String
  deriving DecidableEq, Repr

/-- Embeds `Error` from src/src/main.rs lines 32-36: the error enum with the
two variants `NotFound` and `AlreadyExists`. -/
inductive Error where
  | NotFound
  | AlreadyExists
  deriving DecidableEq, Repr

/-- Minimal JSON value model, enough for the bodies the program produces:
strings and objects with string keys. -/
inductive Json where
  | str (s : String)
  | obj (fields : List (String × Json))

/-- Embeds `Error::into_response` from src/src/main.rs lines 38-51: maps the
error to an HTTP status code and a body of shape `{"error": <msg>}`.
`StatusCode::NOT_FOUND` is 404 and `StatusCode::CONFLICT` is 409. -/
def into_response : Error → Nat × Json
  | Error.NotFound => (404, Json.obj [("error", Json.str "not found")])
  | Error.AlreadyExists => (409, Json.obj [("error", Json.str "already exists")])

/-- Embeds the serde-derived serializer for `Lock` (src/src/lock.rs): a
single-field struct serializes to the object `{"token": <string>}`. -/
def serializeLock (l : Lock) : Json :=
  Json.obj [("token", Json.str l.token)]

/-- Embeds the serde-derived deserializer for `Lock` (src/src/lock.rs): it
accepts exactly the single-field object `{"token": <string>}`. -/
def deserializeLock : Json → Option Lock
  | Json.obj [("token", Json.str t)] => some (Lock.mk t)
  | _ => none

/-- Modelled from the spec: the registry state (spec §3), the complete set of
`key -> record` mappings with at most one record per key. The registry code
itself is missing from the source snapshot. -/
def Registry : Type := String → Option Lock

/-- Modelled from the spec: the registry is created empty at process start. -/
def emptyRegistry : Registry := fun _ => none

/-- Modelled from the spec: `Acquire(key, token)` (spec §4.1) inserts or
overwrites the record for `key` with `{token}`; always succeeds. The
operation is missing from the source snapshot. -/
def acquire (k t : String) (s : Registry) : Registry :=
  fun q => if q = k then some (Lock.mk t) else s q

/-- Modelled from the spec: the removal of a key's record, used by `Release`. -/
def removeKey (k : String) (s : Registry) : Registry :=
  fun q => if q = k then none else s q

/-- Modelled from the spec: `Release(key)` (spec §4.1) atomically removes and
returns the record for `key`, or fails with `NotFound` when no record
exists. The operation is missing from the source snapshot. -/
def release (k : String) (s : Registry) : Except Error (Lock × Registry) :=
  match s k with
  | some l => Except.ok (l, removeKey k s)
  | none => Except.error Error.NotFound

/-- Modelled from the spec: `PurgeAll()` (spec §4.1) atomically discards every
record, leaving the registry empty; always succeeds. The operation is
missing from the source snapshot. -/
def purgeAll (_ : Registry) : Registry := fun _ => none

/-- Modelled from the spec: the HTTP handler for `POST /lock/{key}` (spec §6),
which always answers 201 Created. Missing from the source snapshot. -/
def lockHandler (k t : String) (s : Registry) : Nat × Registry :=
  (201, acquire k t s)

/-- Modelled from the spec: the HTTP handler for `POST /unlock/{key}`
(spec §6): on success 200 OK with body `{"token": <string>}`; on failure the
error is surfaced through `Error::into_response` from src/src/main.rs.
The handler is missing from the source snapshot. -/
def unlockHandler (k : String) (s : Registry) : (Nat × Json) × Registry :=
  match release k s with
  | Except.ok (l, s') => ((200, serializeLock l), s')
  | Except.error e => (into_response e, s)

/-- Modelled from the spec: the HTTP handler for `POST /purge` (spec §6),
which always answers 200 OK. Missing from the source snapshot. -/
def purgeHandler (s : Registry) : Nat × Registry :=
  (200, purgeAll s)

/-- Embeds the users store of `State` (src/src/main.rs lines 17-20): a
`BTreeMap<i32, User>` behind a mutex, modelled as an association list kept
strictly sorted by key (the BTreeMap invariant). -/
abbrev UsersMap : Type := List (Int × User)

/-- Embeds `BTreeMap::get`: the value stored at key `i`, if any. -/
def lookupKey (i : Int) : UsersMap → Option User
  | [] => none
  | (k, v) :: rest => if k = i then some v else lookupKey i rest

/-- Embeds `BTreeMap::contains_key`. -/
def containsKey (i : Int) (s : UsersMap) : Bool :=
  (lookupKey i s).isSome

/-- Embeds `BTreeMap::insert` on the sorted association list: the new entry is
placed at its ordered position, replacing an existing entry with the same
key. -/
def insertSorted (i : Int) (v : User) : UsersMap → UsersMap
  | [] => [(i, v)]
  | (k, w) :: rest =>
    if i < k then (i, v) :: (k, w) :: rest
    else if i = k then (i, v) :: rest
    else (k, w) :: insertSorted i v rest

/-- Embeds `BTreeMap::remove`: drops the entry with key `i` (keys are unique
in a BTreeMap, so removing the first match removes the entry). -/
def eraseKey (i : Int) : UsersMap → UsersMap
  | [] => []
  | (k, v) :: rest => if k = i then rest else (k, v) :: eraseKey i rest

/-- Embeds `get_users` (src/src/main.rs lines 77-81): collects the values of
the map in BTreeMap iteration order (ascending key order). The handler only
reads the state, so the state component is returned unchanged. -/
def get_users (s : UsersMap) : List User × UsersMap :=
  (s.map Prod.snd, s)

/-- Embeds `get_user` (src/src/main.rs lines 83-91): looks up the id and
returns the user, or `NotFound`. The handler only reads the state. -/
def get_user (i : Int) (s : UsersMap) : Except Error User × UsersMap :=
  (match lookupKey i s with
    | some u => Except.ok u
    | none => Except.error Error.NotFound, s)

/-- Embeds `create_user` (src/src/main.rs lines 94-107): if the id is already
present, fail with `AlreadyExists` (map untouched); otherwise insert the
user and answer 201 Created (`StatusCode::CREATED`) echoing the user. -/
def create_user (u : User) (s : UsersMap) :
    Except Error (Nat × User) × UsersMap :=
  if containsKey u.id s then (Except.error Error.AlreadyExists, s)
  else (Except.ok (201, u), insertSorted u.id u s)

/-- Embeds `delete_user` (src/src/main.rs lines 110-121): if the id is
present, remove it and answer 204 No Content (`StatusCode::NO_CONTENT`);
otherwise fail with `NotFound` (map untouched). -/
def delete_user (i : Int) (s : UsersMap) : Except Error Nat × UsersMap :=
  if containsKey i s then (Except.ok 204, eraseKey i s)
  else (Except.error Error.NotFound, s)

/-- Keys of the users map are strictly ascending (the BTreeMap invariant). -/
abbrev sortedKeys (s : UsersMap) : Prop :=
  s.Pairwise (fun p q => p.1 < q.1)

/-- Every stored user's `id` field equals its key; `create_user` is the only
writer and inserts `(user.id, user)`, so this holds for reachable states. -/
abbrev idsMatchKeys (s : UsersMap) : Prop :=
  ∀ p ∈ s, (Prod.snd p).id = p.1

/-- C1: for every key `k` and token `t`, from any registry state, `Acquire(k, t)`
then `Release(k)` returns a record whose token is exactly `t`, and an
immediately following second `Release(k)` fails with `NotFound`. -/
theorem acquire_release_roundtrip (k t : String) (s : Registry) :
    ∃ s', release k (acquire k t s) = Except.ok (Lock.mk t, s') ∧
      release k s' = Except.error Error.NotFound := by
  refine ⟨removeKey k (acquire k t s), ?_, ?_⟩
  · simp [release, acquire]
  · simp [release, removeKey]

/-- C2: for every key `k` and tokens `t1`, `t2`, from any registry state,
`Acquire(k, t1); Acquire(k, t2); Release(k)` returns `t2`; moreover the
second `Acquire` fully overwrites the first, so the state equals the one
reached by `Acquire(k, t2)` alone and `t1` is unrecoverable. -/
theorem acquire_overwrite_last_writer_wins (k t1 t2 : String) (s : Registry) :
    (∃ s', release k (acquire k t2 (acquire k t1 s)) = Except.ok (Lock.mk t2, s')) ∧
      acquire k t2 (acquire k t1 s) = acquire k t2 s := by
  constructor
  · exact ⟨removeKey k (acquire k t2 (acquire k t1 s)), by simp [release, acquire]⟩
  · funext q
    by_cases h : q = k <;> simp [acquire, h]

/-- C3: `PurgeAll` succeeds on every state, is a no-op on the empty registry,
and leaves the registry empty, so every subsequent `Release` fails with
`NotFound` until a new `Acquire` for that key makes it succeed again. -/
theorem purge_all_empties_registry :
    purgeAll emptyRegistry = emptyRegistry ∧
      (∀ (s : Registry) (k : String), purgeAll s k = none ∧
        release k (purgeAll s) = Except.error Error.NotFound ∧
        ∀ t : String, ∃ s', release k (acquire k t (purgeAll s)) =
          Except.ok (Lock.mk t, s')) := by
  refine ⟨rfl, fun s k => ⟨rfl, rfl, fun t => ?_⟩⟩
  exact ⟨removeKey k (acquire k t (purgeAll s)), by simp [release, acquire]⟩

/-- C4 counterexample: the claim that the program's error taxonomy has exactly
one kind is false: `Error.AlreadyExists` is a second, distinct kind
(src/src/main.rs lines 32-36). -/
theorem error_taxonomy_not_single_kind :
    ¬ (∀ e : Error, e = Error.NotFound) := by
  intro h
  exact Error.noConfusion (h Error.AlreadyExists)

/-- C4 amended: the error taxonomy has exactly two kinds, `NotFound` and
`AlreadyExists`; `Release` either succeeds or fails with `NotFound` only,
while `Acquire` and `PurgeAll` are total and always answer their success
status (201 and 200). -/
theorem error_taxonomy_two_kinds :
    (∀ e : Error, e = Error.NotFound ∨ e = Error.AlreadyExists) ∧
      (∀ (k : String) (s : Registry),
        release k s = Except.error Error.NotFound ∨
          ∃ l s', release k s = Except.ok (l, s')) ∧
      (∀ (k t : String) (s : Registry), (lockHandler k t s).1 = 201) ∧
      (∀ s : Registry, (purgeHandler s).1 = 200) := by
  refine ⟨fun e => ?_, fun k s => ?_, fun _ _ _ => rfl, fun _ => rfl⟩
  · cases e
    · exact Or.inl rfl
    · exact Or.inr rfl
  · unfold release
    cases h : s k
    · exact Or.inl rfl
    · exact Or.inr ⟨_, _, rfl⟩

/-- C5 counterexample: a `Release` on an absent key is not surfaced with the
410 Gone status: on the fresh registry, `Release("nope")` answers 404. -/
theorem release_absent_not_gone_410 :
    ¬ ((unlockHandler "nope" emptyRegistry).1.1 = 410) := by
  decide

/-- C5 amended: at the HTTP boundary a `Release` on an absent key is surfaced
with 404 Not Found and body `{"error": "not found"}` (the mapping of
`Error::into_response`, src/src/main.rs lines 38-51), not 410 Gone, while a
successful `Release` returns 200 OK with body `{"token": <string>}`. -/
theorem release_http_statuses (k : String) (s : Registry) :
    (s k = none →
      unlockHandler k s =
        ((404, Json.obj [("error", Json.str "not found")]), s)) ∧
      (∀ l : Lock, s k = some l →
        unlockHandler k s =
          ((200, Json.obj [("token", Json.str l.token)]), removeKey k s)) := by
  constructor
  · intro h
    simp [unlockHandler, release, h, into_response]
  · intro l h
    simp [unlockHandler, release, h, serializeLock]

/-- C5 amended, witness: both branches at concrete inputs: `Release("nope")`
on the fresh registry answers 404 with the error body, and after
`Acquire("k", "tok")` a `Release("k")` answers 200 with the token body. -/
theorem release_http_statuses_witness :
    (emptyRegistry "nope" = none ∧
      unlockHandler "nope" emptyRegistry =
        ((404, Json.obj [("error", Json.str "not found")]), emptyRegistry)) ∧
      ((acquire "k" "tok" emptyRegistry) "k" = some (Lock.mk "tok") ∧
        unlockHandler "k" (acquire "k" "tok" emptyRegistry) =
          ((200, Json.obj [("token", Json.str "tok")]),
            removeKey "k" (acquire "k" "tok" emptyRegistry))) :=
  ⟨⟨rfl, (release_http_statuses "nope" emptyRegistry).1 rfl⟩,
    ⟨by simp [acquire],
      (release_http_statuses "k" (acquire "k" "tok" emptyRegistry)).2
        (Lock.mk "tok") (by simp [acquire])⟩⟩

/-- C6: for distinct keys `k1 ≠ k2`, `Acquire` on `k1` leaves `k2`'s record
unchanged, a successful `Release` of `k1` leaves `k2`'s record unchanged,
and after acquiring both keys (in the order `k1` then `k2`) each key
resolves to its own token. -/
theorem cross_key_independence (k1 k2 t : String) (s : Registry)
    (h : k1 ≠ k2) :
    (acquire k1 t s) k2 = s k2 ∧
      (∀ (l : Lock) (s' : Registry),
        release k1 s = Except.ok (l, s') → s' k2 = s k2) ∧
      (∀ t1 t2 : String,
        (acquire k2 t2 (acquire k1 t1 s)) k1 = some (Lock.mk t1) ∧
          (acquire k2 t2 (acquire k1 t1 s)) k2 = some (Lock.mk t2)) := by
  have h2 : k2 ≠ k1 := fun hq => h hq.symm
  refine ⟨by simp [acquire, h2], fun l s' hr => ?_, fun t1 t2 => ?_⟩
  · unfold release at hr
    cases hq : s k1 with
    | none => simp [hq] at hr
    | some l' =>
      simp [hq] at hr
      rw [← hr.2]
      simp [removeKey, h2]
  · constructor
    · simp [acquire, h]
    · simp [acquire]

/-- C6 witness: at the concrete keys "a" ≠ "b" with token "x" on the fresh
registry, the independence properties hold. -/
theorem cross_key_independence_witness :
    ("a" : String) ≠ "b" ∧
      (acquire "a" "x" emptyRegistry) "b" = emptyRegistry "b" ∧
      (∀ (l : Lock) (s' : Registry),
        release "a" emptyRegistry = Except.ok (l, s') →
          s' "b" = emptyRegistry "b") ∧
      (∀ t1 t2 : String,
        (acquire "b" t2 (acquire "a" t1 emptyRegistry)) "a" =
          some (Lock.mk t1) ∧
          (acquire "b" t2 (acquire "a" t1 emptyRegistry)) "b" =
            some (Lock.mk t2)) :=
  ⟨by decide, cross_key_independence "a" "b" "x" emptyRegistry (by decide)⟩

/-- C7: the lock record's wire shape is the single-field object
`{"token": <string>}` and it round-trips exactly: deserializing the
serialization of any `Lock` yields that same `Lock` back. -/
theorem lock_wire_shape_roundtrip (l : Lock) :
    serializeLock l = Json.obj [("token", Json.str l.token)] ∧
      deserializeLock (serializeLock l) = some l := by
  exact ⟨rfl, rfl⟩

/-- Looking up a key just inserted by `insertSorted` finds the new value. -/
theorem lookupKey_insertSorted_self (i : Int) (v : User) (s : UsersMap) :
    lookupKey i (insertSorted i v s) = some v := by
  induction s with
  | nil => simp [insertSorted, lookupKey]
  | cons p rest ih =>
    obtain ⟨k, w⟩ := p
    by_cases h1 : i < k
    · simp [insertSorted, h1, lookupKey]
    · by_cases h2 : i = k
      · simp [insertSorted, h1, h2, lookupKey]
      · have h3 : ¬ k = i := fun he => h2 he.symm
        simp [insertSorted, h1, h2, lookupKey, h3, ih]

/-- Lookup misses when no entry carries the key. -/
theorem lookupKey_eq_none_of_forall_ne (i : Int) (s : UsersMap)
    (h : ∀ p ∈ s, p.1 ≠ i) : lookupKey i s = none := by
  induction s with
  | nil => rfl
  | cons p rest ih =>
    obtain ⟨k, w⟩ := p
    have hk : k ≠ i := h (k, w) (List.mem_cons_self _ _)
    simp only [lookupKey, if_neg hk]
    exact ih fun q hq => h q (List.mem_cons_of_mem _ hq)

/-- Erasing a key from a strictly-sorted map removes it entirely. -/
theorem lookupKey_eraseKey_of_sorted (i : Int) (s : UsersMap)
    (hs : List.Pairwise (fun p q : Int × User => p.1 < q.1) s) :
    lookupKey i (eraseKey i s) = none := by
  induction s with
  | nil => rfl
  | cons p rest ih =>
    obtain ⟨k, w⟩ := p
    cases hs with
    | cons hrel hrest =>
      by_cases h : k = i
      · subst h
        simp only [eraseKey, if_pos rfl]
        exact lookupKey_eq_none_of_forall_ne _ _
          fun q hq => ne_of_gt (hrel q hq)
      · simp only [eraseKey, if_neg h, lookupKey, if_neg h]
        exact ih hrest

/-- Strict key sortedness transfers to the stored users' ids when each user's
id equals its key. -/
theorem pairwise_id_of_sorted (s : UsersMap)
    (hs : List.Pairwise (fun p q : Int × User => p.1 < q.1) s)
    (hid : ∀ p ∈ s, (Prod.snd p).id = p.1) :
    List.Pairwise (fun p q : Int × User => (Prod.snd p).id < (Prod.snd q).id) s := by
  induction s with
  | nil => exact List.Pairwise.nil
  | cons p rest ih =>
    cases hs with
    | cons hrel hrest =>
      refine List.Pairwise.cons (fun q hq => ?_)
        (ih hrest fun q hq => hid q (List.mem_cons_of_mem p hq))
      rw [hid p (List.mem_cons_self p rest), hid q (List.mem_cons_of_mem p hq)]
      exact hrel q hq

/-- C8: `create_user` on a user whose id is already present fails with
`AlreadyExists` (mapped to 409 Conflict at the boundary) and leaves the map
unchanged; on a fresh id it inserts the user (who is then found under their
id) and answers 201 Created echoing the same user. -/
theorem create_user_conflict_or_insert (s : UsersMap) (u : User) :
    (containsKey u.id s = true →
      create_user u s = (Except.error Error.AlreadyExists, s)) ∧
      (containsKey u.id s = false →
        create_user u s = (Except.ok (201, u), insertSorted u.id u s) ∧
          lookupKey u.id (create_user u s).2 = some u) ∧
      into_response Error.AlreadyExists =
        (409, Json.obj [("error", Json.str "already exists")]) := by
  refine ⟨fun h => ?_, fun h => ⟨?_, ?_⟩, rfl⟩
  · simp [create_user, h]
  · simp [create_user, h]
  · simp [create_user, h, lookupKey_insertSorted_self]

/-- C8 witness: on the concrete map holding id 1, creating another user with
id 1 conflicts and leaves the map unchanged, while creating a user with the
fresh id 2 inserts them and answers 201. -/
theorem create_user_conflict_or_insert_witness :
    (containsKey (User.mk 1 "bob" "b@x").id [((1 : Int), User.mk 1 "alice" "a@x")] = true ∧
      create_user (User.mk 1 "bob" "b@x") [((1 : Int), User.mk 1 "alice" "a@x")] =
        (Except.error Error.AlreadyExists, [((1 : Int), User.mk 1 "alice" "a@x")])) ∧
      (containsKey (User.mk 2 "bob" "b@x").id [((1 : Int), User.mk 1 "alice" "a@x")] = false ∧
        create_user (User.mk 2 "bob" "b@x") [((1 : Int), User.mk 1 "alice" "a@x")] =
          (Except.ok (201, User.mk 2 "bob" "b@x"),
            insertSorted 2 (User.mk 2 "bob" "b@x") [((1 : Int), User.mk 1 "alice" "a@x")]) ∧
          lookupKey (User.mk 2 "bob" "b@x").id
            (create_user (User.mk 2 "bob" "b@x") [((1 : Int), User.mk 1 "alice" "a@x")]).2 =
            some (User.mk 2 "bob" "b@x")) :=
  ⟨⟨by decide,
      (create_user_conflict_or_insert [((1 : Int), User.mk 1 "alice" "a@x")]
        (User.mk 1 "bob" "b@x")).1 (by decide)⟩,
    ⟨by decide,
      (create_user_conflict_or_insert [((1 : Int), User.mk 1 "alice" "a@x")]
        (User.mk 2 "bob" "b@x")).2.1 (by decide)⟩⟩

/-- C9: `delete_user` removes the entry and answers 204 No Content exactly
when the id is present (after which, on a sorted map, the id no longer
resolves); on an absent id it fails with `NotFound` and the map is
unchanged. -/
theorem delete_user_present_or_not_found (s : UsersMap) (i : Int) :
    (containsKey i s = true →
      delete_user i s = (Except.ok 204, eraseKey i s) ∧
        (sortedKeys s → lookupKey i (delete_user i s).2 = none)) ∧
      (containsKey i s = false →
        delete_user i s = (Except.error Error.NotFound, s)) := by
  refine ⟨fun h => ⟨?_, fun hs => ?_⟩, fun h => ?_⟩
  · simp [delete_user, h]
  · simp only [delete_user, h, if_pos]
    exact lookupKey_eraseKey_of_sorted i s hs
  · simp [delete_user, h]

/-- C9 witness: on the concrete sorted map holding ids 1 and 2, deleting id 1
answers 204 and id 1 no longer resolves, while deleting the absent id 3
fails with `NotFound` and leaves the map unchanged. -/
theorem delete_user_present_or_not_found_witness :
    (containsKey 1 [((1 : Int), User.mk 1 "a" "a"), ((2 : Int), User.mk 2 "b" "b")] = true ∧
      delete_user 1 [((1 : Int), User.mk 1 "a" "a"), ((2 : Int), User.mk 2 "b" "b")] =
        (Except.ok 204, eraseKey 1 [((1 : Int), User.mk 1 "a" "a"), ((2 : Int), User.mk 2 "b" "b")]) ∧
        (sortedKeys [((1 : Int), User.mk 1 "a" "a"), ((2 : Int), User.mk 2 "b" "b")] →
          lookupKey 1
            (delete_user 1 [((1 : Int), User.mk 1 "a" "a"), ((2 : Int), User.mk 2 "b" "b")]).2 =
            none)) ∧
      (containsKey 3 [((1 : Int), User.mk 1 "a" "a"), ((2 : Int), User.mk 2 "b" "b")] = false ∧
        delete_user 3 [((1 : Int), User.mk 1 "a" "a"), ((2 : Int), User.mk 2 "b" "b")] =
          (Except.error Error.NotFound,
            [((1 : Int), User.mk 1 "a" "a"), ((2 : Int), User.mk 2 "b" "b")])) :=
  ⟨⟨by decide,
      (delete_user_present_or_not_found
        [((1 : Int), User.mk 1 "a" "a"), ((2 : Int), User.mk 2 "b" "b")] 1).1 (by decide)⟩,
    ⟨by decide,
      (delete_user_present_or_not_found
        [((1 : Int), User.mk 1 "a" "a"), ((2 : Int), User.mk 2 "b" "b")] 3).2 (by decide)⟩⟩

/-- C10: on a well-formed users map (keys strictly sorted, each user stored
under their own id), `get_users` returns exactly the users in the map in
strictly ascending id order, and neither `get_users` nor `get_user` changes
the map. -/
theorem get_users_sorted_and_complete (s : UsersMap)
    (hs : sortedKeys s) (hid : idsMatchKeys s) :
    (get_users s).1.Pairwise (fun a b => a.id < b.id) ∧
      (∀ u : User, u ∈ (get_users s).1 ↔ (u.id, u) ∈ s) ∧
      (get_users s).2 = s ∧
      (∀ i : Int, (get_user i s).2 = s) := by
  refine ⟨?_, fun u => ⟨fun hu => ?_, fun hu => ?_⟩, rfl, fun _ => rfl⟩
  · exact (List.pairwise_map).mpr (pairwise_id_of_sorted s hs hid)
  · obtain ⟨⟨a, b⟩, hp, hpe⟩ := List.mem_map.mp hu
    have ha : b.id = a := hid (a, b) hp
    cases hpe
    rw [ha]
    exact hp
  · exact List.mem_map.mpr ⟨(u.id, u), hu, rfl⟩

/-- C10 witness: on a concrete well-formed two-user map, `get_users` lists
both users with ascending ids, membership coincides with the map, and the
read-only handlers leave the map unchanged. -/
theorem get_users_sorted_and_complete_witness :
    (sortedKeys [((1 : Int), User.mk 1 "a" "a"), ((2 : Int), User.mk 2 "b" "b")] ∧
      idsMatchKeys [((1 : Int), User.mk 1 "a" "a"), ((2 : Int), User.mk 2 "b" "b")]) ∧
      ((get_users [((1 : Int), User.mk 1 "a" "a"), ((2 : Int), User.mk 2 "b" "b")]).1.Pairwise
          (fun a b => a.id < b.id) ∧
        (∀ u : User,
          u ∈ (get_users [((1 : Int), User.mk 1 "a" "a"), ((2 : Int), User.mk 2 "b" "b")]).1 ↔
            (u.id, u) ∈ [((1 : Int), User.mk 1 "a" "a"), ((2 : Int), User.mk 2 "b" "b")]) ∧
        (get_users [((1 : Int), User.mk 1 "a" "a"), ((2 : Int), User.mk 2 "b" "b")]).2 =
          [((1 : Int), User.mk 1 "a" "a"), ((2 : Int), User.mk 2 "b" "b")] ∧
        (∀ i : Int,
          (get_user i [((1 : Int), User.mk 1 "a" "a"), ((2 : Int), User.mk 2 "b" "b")]).2 =
            [((1 : Int), User.mk 1 "a" "a"), ((2 : Int), User.mk 2 "b" "b")])) :=
  ⟨⟨by decide, by decide⟩,
    get_users_sorted_and_complete
      [((1 : Int), User.mk 1 "a" "a"), ((2 : Int), User.mk 2 "b" "b")]
      (by decide) (by decide)⟩

end TouchId
